import Mathlib

/-!
Verification of the survey ETL transformation and aggregation engine
(`airflow/dags/tasks/transformacao_survey.py`,
`airflow/dags/tasks/transformacao_gold_survey.py`, `airflow/dags/dag_etl_survey.py`).

The Python code is shallowly embedded: pandas columns become Lean lists,
missing values (NaN / None) become `Option.none`, Python strings become
`String`, floats become `ℚ` (with an explicit `nan` constructor where the
code can actually produce a NaN), and fallible code returns `Except`.
-/

namespace SurveyETL

/-! ## Python string primitives used by the transformations -/

/-- `str.lower()` restricted to the characters that occur in the survey
lexicons: ASCII letters are lower-cased and `Ã` (the only non-ASCII upper-case
letter in the lexicons, from "NÃO") maps to `ã`. Other characters are fixed. -/
def pyLowerChar (c : Char) : Char :=
  if c = 'Ã' then 'ã' else c.toLower

/-- `str.lower()` on a whole string. -/
def pyLower (s : String) : String :=
  String.mk (s.toList.map pyLowerChar)

/-- `str.strip()`: remove leading and trailing whitespace. -/
def pyStrip (s : String) : String :=
  String.mk (((s.toList.dropWhile Char.isWhitespace).reverse.dropWhile
      Char.isWhitespace).reverse)

/-! ## `_normalize_yes_no` (transformacao_survey.py lines 39-49) -/

/-- The apostrophe character, used by the token "don't know". -/
def apos : Char := Char.ofNat 39

/-- The maybe-token containing an apostrophe. -/
def dontKnow : String := String.mk (['d', 'o', 'n'] ++ [apos] ++ ['t', ' ', 'k', 'n', 'o', 'w'])

/-- The maybe-token without an apostrophe. -/
def dontKnow2 : String := "dont know"

/-- The yes-lexicon of `_normalize_yes_no`. -/
def yesTokens : List String := ["yes", "y", "true", "1", "sim", "s"]

/-- The no-lexicon of `_normalize_yes_no`. -/
def noTokens : List String := ["no", "n", "false", "0", "não", "nao"]

/-- The maybe-lexicon of `_normalize_yes_no`. -/
def maybeTokens : List String := ["maybe", "sometimes", "unsure", dontKnow, dontKnow2]

/-- `_normalize_yes_no(v)`: `pd.isna(v)` yields `None`; otherwise the value is
stripped and lower-cased and looked up in the three fixed lexicons; any other
non-null value yields `"unknown"`. A missing value is `Option.none`. -/
def _normalize_yes_no (v : Option String) : Option String :=
  match v with
  | none => none
  | some x =>
    let s := pyLower (pyStrip x)
    if s ∈ yesTokens then some "yes"
    else if s ∈ noTokens then some "no"
    else if s ∈ maybeTokens then some "maybe"
    else some "unknown"

/-! ## Free-text column cleaning (transformacao_survey.py line 101)

`df[col].astype(str).str.strip().replace({"nan": None, "none": None,
"na": None, "n/a": None})` for `col` in `country`, `state`, `comments`.
The input is the value after `astype(str)` (a genuine NaN becomes the string
`"nan"`, a `None` becomes `"None"`). `Series.replace` with a plain dict
matches whole values exactly, so the sentinel match is case-sensitive. -/

/-- The sentinel tokens of the replace dict on line 101. -/
def textSentinels : List String := ["nan", "none", "na", "n/a"]

/-- The per-value effect of `astype(str).str.strip().replace({...})`. -/
def clean_text_col (v : String) : Option String :=
  let t := pyStrip v
  if t ∈ textSentinels then none else some t

/-! ## `bucket_emp` (transformacao_survey.py lines 117-135) -/

/-- The digits of a string, in order (`re.sub(r'\D', '', s)` keeps exactly
these characters). -/
def digitsOf (l : List Char) : List Char := l.filter Char.isDigit

/-- `int(...)` on a non-empty digit string. -/
def digitsToNat (l : List Char) : Nat :=
  l.foldl (fun n c => 10 * n + (c.toNat - 48)) 0

/-- `bucket_emp(v)`: the value is stringified and lower-cased; if it contains
`-` or `+` the lower-cased text is returned; otherwise when it contains digits
the concatenated digits are bucketed by the thresholds 5/25/100/500, and when
it contains no digit the lower-cased text is returned. -/
def bucket_emp (v : String) : String :=
  let s := pyLower v
  let cs := s.toList
  if '-' ∈ cs ∨ '+' ∈ cs then s
  else if digitsOf cs = [] then s
  else
    let n := digitsToNat (digitsOf cs)
    if n ≤ 5 then "1-5"
    else if n ≤ 25 then "6-25"
    else if n ≤ 100 then "26-100"
    else if n ≤ 500 then "101-500"
    else "500+"

/-! ## `work_interfere` normalization (transformacao_survey.py lines 139-142)

`df["work_interfere"].astype(str).str.lower().str.strip().replace({...})`:
the replace dict maps `never/rarely/sometimes/often` to themselves and
`na`/`none` to `"unknown"`; any other value (including the string `"nan"`
that `astype(str)` produces from a missing value) passes through. -/

/-- Per-value effect of the `work_interfere_std` column construction. A
missing raw value is `none` and is stringified to `"nan"` by `astype(str)`. -/
def work_interfere_norm (v : Option String) : String :=
  let s := pyStrip (pyLower (match v with | none => "nan" | some x => x))
  if s = "na" ∨ s = "none" then "unknown" else s

/-! ## Risk scoring (transformacao_survey.py lines 144-157)

A raw survey row is embedded with the five columns the risk score reads;
a silver row carries their normalized forms plus the derived columns
(helper `_*_flag` columns are dropped by line 155, `processed_at` is a
run-constant timestamp and is not modelled). -/

/-- The five risk-relevant raw columns of one survey row (a missing cell is
`none`). -/
structure RawRow where
  family_history : Option String
  treatment : Option String
  work_interfere : Option String
  mental_health_consequence : Option String
  phys_health_consequence : Option String
deriving DecidableEq

/-- The corresponding columns of one transformed (silver) row. -/
structure SilverRow where
  family_history_std : Option String
  treatment_std : Option String
  work_interfere_std : String
  mental_health_consequence_std : Option String
  phys_health_consequence_std : Option String
  risk_score : Nat
  needs_follow_up : Nat
deriving DecidableEq

/-- `lambda x: 1 if x == "yes" else 0` (lines 145, 146, 148, 149). -/
def flag_yes (v : Option String) : Nat := if v = some "yes" then 1 else 0

/-- `lambda x: 1 if x in ("often", "sometimes") else 0` (line 147). -/
def flag_wi (s : String) : Nat := if s = "often" ∨ s = "sometimes" then 1 else 0

/-- The row-wise part of `transform_survey_df` restricted to the risk
pipeline: normalize the five source columns, sum the five binary flags into
`risk_score` (line 151) and derive `needs_follow_up` (line 152). -/
def transformRow (r : RawRow) : SilverRow :=
  let fh := _normalize_yes_no r.family_history
  let tr := _normalize_yes_no r.treatment
  let wi := work_interfere_norm r.work_interfere
  let mc := _normalize_yes_no r.mental_health_consequence
  let pc := _normalize_yes_no r.phys_health_consequence
  let risk := flag_yes fh + flag_yes tr + flag_wi wi + flag_yes mc + flag_yes pc
  { family_history_std := fh
    treatment_std := tr
    work_interfere_std := wi
    mental_health_consequence_std := mc
    phys_health_consequence_std := pc
    risk_score := risk
    needs_follow_up := if 2 ≤ risk ∧ flag_yes tr = 0 then 1 else 0 }

/-- `transform_survey_df` at the record-set level (restricted to the risk
columns): row-wise transformation followed by `drop_duplicates()` (line 156).
`drop_duplicates` keeps one copy of each distinct row; its keep-first choice
affects only the output order, which `List.dedup` models up to reordering. -/
def transform_survey_rows (rows : List RawRow) : List SilverRow :=
  (rows.map transformRow).dedup

/-! ## `_limpar_comentario` (transformacao_gold_survey.py lines 55-61) -/

/-- Auxiliary state machine for `re.sub(r'\s+', ' ', s)`: every maximal run
of whitespace becomes one space. The flag records whether the previous kept
character came from a whitespace run. -/
def collapseWsAux : Bool → List Char → List Char
  | _, [] => []
  | prevWs, c :: cs =>
    if c.isWhitespace then
      if prevWs then collapseWsAux true cs else ' ' :: collapseWsAux true cs
    else c :: collapseWsAux false cs

/-- `re.sub(r'\s+', ' ', s)`. -/
def collapseWs (l : List Char) : List Char := collapseWsAux false l

/-- The sentinel set of `_limpar_comentario` (line 60). -/
def limparSentinels : List String := ["nan", "none", "na", "n/a"]

/-- `_limpar_comentario(texto)` on a stringified value: strip, collapse
whitespace runs, and return `None` when the result is empty or its
lower-casing is a sentinel token. (The caller applies `astype(str)` first,
so a genuine NaN arrives as the string `"nan"`.) -/
def _limpar_comentario (texto : String) : Option String :=
  let s := String.mk (collapseWs (pyStrip texto).toList)
  if 0 < s.length ∧ pyLower s ∉ limparSentinels then some s else none

/-- Descending-length order on strings used by
`sort_values(key=..., ascending=False)` (line 248). -/
def lenGe (a b : String) : Prop := b.length ≤ a.length

instance : DecidableRel lenGe := fun a b => Nat.decLe b.length a.length

instance : IsTotal String lenGe := ⟨fun a b => Nat.le_total b.length a.length⟩

instance : IsTrans String lenGe :=
  ⟨fun _ _ _ hab hbc => Nat.le_trans hbc hab⟩

/-- The comments that survive cleaning and the `.str.len() > 5` filter
(lines 245-246). -/
def comentariosQualificados (comments : List String) : List String :=
  ((comments.map _limpar_comentario).reduceOption).filter (fun s => 5 < s.length)

/-- The comments artifact of `salvar_gold_e_db` (lines 243-256): `none` when
no comment qualifies (no artifact is uploaded), otherwise the 200 longest
qualifying comments in descending length order. -/
def topComentarios (comments : List String) : Option (List String) :=
  let q := comentariosQualificados comments
  if q = [] then none
  else some ((List.insertionSort lenGe q).take 200)

/-! ## `_obter_ultimo_arquivo_silver` (transformacao_gold_survey.py lines 64-70) -/

/-- One entry of the `list_objects_v2` listing: its key and its
`LastModified` stamp (modelled as a number; every real S3 object carries
one, so the `x.get("LastModified", x.get("Key"))` fallback never fires). -/
structure S3Obj where
  key : String
  lastModified : Nat
deriving DecidableEq

/-- Descending order on `LastModified` used by
`sorted(keys, key=lambda x: x.get("LastModified", ...), reverse=True)`.
Python's `sorted` is stable, which `List.insertionSort` with this
reflexive-on-ties relation reproduces exactly. -/
def lmGe (a b : S3Obj) : Prop := b.lastModified ≤ a.lastModified

instance : DecidableRel lmGe := fun a b => Nat.decLe b.lastModified a.lastModified

instance : IsTotal S3Obj lmGe := ⟨fun a b => Nat.le_total b.lastModified a.lastModified⟩

instance : IsTrans S3Obj lmGe :=
  ⟨fun _ _ _ hab hbc => Nat.le_trans hbc hab⟩

/-- The `.parquet` candidates of the listing (line 66):
`o['Key'].lower().endswith('.parquet')`. -/
def parquetCandidates (objs : List S3Obj) : List S3Obj :=
  objs.filter (fun o => ".parquet".toList.isSuffixOf (pyLower o.key).toList)

/-- `_obter_ultimo_arquivo_silver`: filter the listing to parquet keys,
raise `FileNotFoundError` when none exists, otherwise sort descending by
modification time (stable) and return the first key. -/
def _obter_ultimo_arquivo_silver (objs : List S3Obj) : Except String String :=
  let keys := parquetCandidates objs
  match (List.insertionSort lmGe keys).head? with
  | none => .error "Nenhum arquivo .parquet encontrado"
  | some o => .ok o.key

/-- Modelled from the spec's selection rule, for comparison with the code:
the first object in listing order attaining the maximal `LastModified`. -/
def primeiroMax : List S3Obj → Option S3Obj
  | [] => none
  | x :: xs =>
    match primeiroMax xs with
    | none => some x
    | some m => if lmGe x m then some x else some m

/-! ## `_extract_bucket_name` (dag_etl_survey.py lines 26-49) -/

/-- The bucket-name pattern `^[a-zA-Z0-9.\-_]{1,255}$` of line 46. -/
def validBucketName (s : String) : Bool :=
  decide (1 ≤ s.length) && decide (s.length ≤ 255) &&
    s.toList.all (fun c => c.isAlphanum || c = '.' || c = '-' || c = '_')

/-- `urlparse(value).netloc` for a value starting with `s3://`: the
characters after the `//` up to the first `/`, `?` or `#`. -/
def urlparseNetloc (value : String) : String :=
  String.mk ((value.toList.drop 5).takeWhile (fun c => c ≠ '/' ∧ c ≠ '?' ∧ c ≠ '#'))

/-- The identifier the code extracts before validation (lines 39-43): the
URL authority when the value starts with `s3://`, otherwise
`value.split("/", 1)[0]`. -/
def leading_identifier (value : String) : String :=
  if "s3://".toList.isPrefixOf value.toList then urlparseNetloc value
  else String.mk (value.toList.takeWhile (fun c => c ≠ '/'))

/-- `_extract_bucket_name(value)`: `ValueError` on empty input, else extract
the leading identifier and validate it against the pattern. -/
def _extract_bucket_name (value : String) : Except String String :=
  if value = "" then .error "Bucket value está vazio"
  else
    let bucket := leading_identifier value
    if validBucketName bucket then .ok bucket
    else .error ("Nome de bucket inválido extraído: " ++ bucket)

/-! ## `calcular_metricas` (transformacao_gold_survey.py lines 73-126)

The silver record set is a list of canonical records; every column modelled
here is nullable (`none` is a NaN cell). Floats are `ℚ`, except where the
code can really produce a float NaN, modelled by `PyFloat.nan`. -/

/-- A Python float: a finite value or NaN. -/
inductive PyFloat where
  | num (q : ℚ)
  | nan
deriving DecidableEq

/-- One canonical (silver) record, restricted to the columns
`calcular_metricas` reads. -/
structure CRecord where
  timestamp : Option Int
  age : Option ℚ
  age_group : Option String
  gender_norm : Option String
  treatment_std : Option String
  no_employees_bucket : Option String
  work_interfere_std : Option String
  risk_score : Option ℚ
  country : Option String
  state : Option String
  comments : Option String
deriving DecidableEq

/-- Descending order on counts used by `value_counts` tables. -/
def countGe {α : Type} (p q : α × Nat) : Prop := q.2 ≤ p.2

instance {α : Type} : DecidableRel (countGe (α := α)) :=
  fun p q => Nat.decLe q.2 p.2

instance {α : Type} : IsTotal (α × Nat) countGe :=
  ⟨fun p q => Nat.le_total q.2 p.2⟩

instance {α : Type} : IsTrans (α × Nat) countGe :=
  ⟨fun _ _ _ hab hbc => Nat.le_trans hbc hab⟩

/-- `Series.value_counts(dropna=False)`: one row per distinct value with its
occurrence count, sorted by count descending. (pandas leaves the relative
order of equal counts implementation-defined — it follows hash-table
insertion order and an unstable sort — so the table's row order at count
ties depends on the input row order; this model fixes one such order.) -/
def valueCounts {α : Type} [DecidableEq α] (xs : List α) : List (α × Nat) :=
  List.insertionSort countGe (xs.dedup.map (fun k => (k, xs.count k)))

/-- `Series.median()` over the non-null values: middle of the sorted list,
or the mean of the two middle elements for an even count. -/
def medianaDe (vs : List ℚ) : ℚ :=
  let s := List.insertionSort (· ≤ ·) vs
  let n := s.length
  if n % 2 = 1 then s.getD (n / 2) 0
  else (s.getD (n / 2 - 1) 0 + s.getD (n / 2) 0) / 2

/-- The sample variance (`ddof=1`) of a list with at least two elements;
`Series.std()` is its square root, so two record sets have equal standard
deviations exactly when they have equal variances. -/
def variancia (vs : List ℚ) : ℚ :=
  let m := vs.sum / (vs.length : ℚ)
  (vs.map (fun x => (x - m) * (x - m))).sum / ((vs.length : ℚ) - 1)

/-- The `resultados['tratamento']` sub-dict (lines 93-101). -/
structure Tratamento where
  total : Nat
  quantidade_sim : Nat
  taxa_tratamento : Option ℚ
deriving DecidableEq

/-- The treatment metrics (lines 93-101): totals are read back off the
`value_counts` table exactly as the code does. -/
def tratamentoDe (l : List CRecord) : Tratamento :=
  let tab := valueCounts (l.map (·.treatment_std))
  let total := (tab.map Prod.snd).sum
  let sim :=
    if tab.any (fun p => p.1 == some "yes") then
      ((tab.filter (fun p => p.1 == some "yes")).map Prod.snd).sum
    else 0
  { total := total
    quantidade_sim := sim
    taxa_tratamento := if 0 < total then some ((sim : ℚ) / (total : ℚ)) else none }

/-- The columns of the modelled silver frame, with their is-missing
predicates, in frame order — used by the `faltantes` table (lines 122-124). -/
def colunasCanonicas : List (String × (CRecord → Bool)) :=
  [("timestamp", fun r => r.timestamp.isNone),
   ("age", fun r => r.age.isNone),
   ("age_group", fun r => r.age_group.isNone),
   ("gender_norm", fun r => r.gender_norm.isNone),
   ("treatment_std", fun r => r.treatment_std.isNone),
   ("no_employees_bucket", fun r => r.no_employees_bucket.isNone),
   ("work_interfere_std", fun r => r.work_interfere_std.isNone),
   ("risk_score", fun r => r.risk_score.isNone),
   ("country", fun r => r.country.isNone),
   ("state", fun r => r.state.isNone),
   ("comments", fun r => r.comments.isNone)]

/-- The `resultados` dict of `calcular_metricas` for the full canonical
schema (every modelled column present; the `metrica`/`tabela` constant label
columns the code attaches to each table are omitted). The
`desvio_padrao_risco_sq` field is the sample variance whose square root the
code stores; with a single non-null risk value pandas' `std` is `0/0 = NaN`. -/
structure Metricas where
  total_respostas : Nat
  timestamps_unicos : Nat
  idades_faltantes : Nat
  faixa_etaria : List (Option String × Nat)
  genero : List (Option String × Nat)
  tratamento : Tratamento
  media_risco : Option ℚ
  mediana_risco : Option ℚ
  desvio_padrao_risco_sq : Option PyFloat
  tamanho_empresa : List (Option String × Nat)
  interferencia_trabalho : List (Option String × Nat)
  faltantes : List (String × ℚ)

/-- `calcular_metricas(df)` (lines 73-126). `nunique` counts distinct
non-null values; `mean`/`median`/`std` skip NaN and are guarded by
`notna().any()`; the missing-value table divides per-column NaN counts by
the row count. -/
def calcular_metricas (l : List CRecord) : Metricas :=
  let riscos := l.filterMap (·.risk_score)
  { total_respostas := l.length
    timestamps_unicos := (l.filterMap (·.timestamp)).dedup.length
    idades_faltantes := l.countP (fun r => r.age.isNone)
    faixa_etaria := valueCounts (l.map (·.age_group))
    genero := valueCounts (l.map (·.gender_norm))
    tratamento := tratamentoDe l
    media_risco :=
      if riscos = [] then none else some (riscos.sum / (riscos.length : ℚ))
    mediana_risco := if riscos = [] then none else some (medianaDe riscos)
    desvio_padrao_risco_sq :=
      if riscos = [] then none
      else if riscos.length = 1 then some .nan
      else some (.num (variancia riscos))
    tamanho_empresa := valueCounts (l.map (·.no_employees_bucket))
    interferencia_trabalho := valueCounts (l.map (·.work_interfere_std))
    faltantes :=
      colunasCanonicas.map (fun c => (c.1, (l.countP c.2 : ℚ) / (l.length : ℚ))) }

/-! ## The gold summary table (transformacao_gold_survey.py lines 129-139
and 181-216)

`salvar_gold_e_db` consumes the `resultados` dict of an arbitrary silver
frame, where any optional metric may be absent (`None`); this general shape
is `Resultados`. Scalar values are dynamically typed, modelled by `PyVal`. -/

/-- A dynamically typed scalar metric value. -/
inductive PyVal where
  | vnone
  | vint (n : Int)
  | vfloat (f : PyFloat)
deriving DecidableEq

/-- `_to_str_or_none(x)` (lines 129-139) on scalar values: `None` stays
null, a float NaN becomes null, anything else is stringified. -/
def _to_str_or_none : PyVal → Option String
  | .vnone => none
  | .vint n => some (toString n)
  | .vfloat .nan => none
  | .vfloat (.num q) => some (toString q)

/-- A nullable int as a `PyVal`. -/
def ofOptInt : Option Int → PyVal
  | none => .vnone
  | some n => .vint n

/-- A nullable float as a `PyVal`. -/
def ofOptFloat : Option PyFloat → PyVal
  | none => .vnone
  | some f => .vfloat f

/-- The `tratamento` sub-dict as `salvar_gold_e_db` sees it. -/
structure TratamentoDict where
  total : Int
  quantidade_sim : Int
  taxa_tratamento : Option PyFloat
deriving DecidableEq

/-- The `resultados` dict as consumed by `salvar_gold_e_db`: each metric
whose source column may be absent from the silver frame is optional. -/
structure Resultados where
  total_respostas : Int
  timestamps_unicos : Option Int
  idades_faltantes : Option Int
  tratamento : Option TratamentoDict
  media_risco : Option PyFloat
  mediana_risco : Option PyFloat
  desvio_padrao_risco : Option PyFloat
deriving DecidableEq

/-- The intermediate `resumo` summary table as of line 202: nine fixed
`(metrica, valor)` rows, the `valor` column normalized by `_to_str_or_none`,
so each `valor` is a string or null at this point. An absent metric
contributes a null `valor` here; `(resultados.get('tratamento') or
{}).get(...)` is the `Option.map`/`Option.bind` on the optional sub-dict.
The serialized table applies the further coercions of lines 212-216, see
`valor_final` and `resumo_final`. -/
def resumo (r : Resultados) : List (String × Option String) :=
  [("total_respostas", _to_str_or_none (.vint r.total_respostas)),
   ("timestamps_unicos", _to_str_or_none (ofOptInt r.timestamps_unicos)),
   ("idades_faltantes", _to_str_or_none (ofOptInt r.idades_faltantes)),
   ("total_tratamentos", _to_str_or_none (ofOptInt (r.tratamento.map (·.total)))),
   ("tratamentos_sim",
     _to_str_or_none (ofOptInt (r.tratamento.map (·.quantidade_sim)))),
   ("taxa_tratamento",
     _to_str_or_none (ofOptFloat (r.tratamento.bind (·.taxa_tratamento)))),
   ("media_risco", _to_str_or_none (ofOptFloat r.media_risco)),
   ("mediana_risco", _to_str_or_none (ofOptFloat r.mediana_risco)),
   ("desvio_padrao_risco", _to_str_or_none (ofOptFloat r.desvio_padrao_risco))]

/-- The per-value effect of lines 212-216 on the `valor` column:
`astype('string')` (line 213) converts a `None` into the pandas missing
marker `pd.NA`, and the final `apply(lambda x: None if x is None else
str(x))` (line 216) receives that marker — which is not `None` — and
stringifies it, yielding the literal string `"<NA>"`. A present string is
unchanged. So the serialized column holds no null at all. -/
def valor_final : Option String → Option String
  | none => some "<NA>"
  | some s => some s

/-- The `resumo` table as actually serialized on line 218, after the
`valor` re-coercions of lines 212-216. -/
def resumo_final (r : Resultados) : List (String × Option String) :=
  (resumo r).map (fun p => (p.1, valor_final p.2))

/-! ## The copy discipline of `transform_survey_df` (transformacao_survey.py
lines 77-160)

To state that the caller's DataFrame is left unchanged, DataFrames live on a
heap of reference cells: `transform_survey_df` receives a reference, copies
the object (`df = df.copy()`, line 80) into a fresh cell, performs its
column assignments on the copy, and returns the new reference. -/

/-- A DataFrame object: a raw survey frame or a transformed silver frame. -/
inductive PyDF where
  | raw (rows : List RawRow)
  | silver (rows : List SilverRow)
deriving DecidableEq

/-- A heap of DataFrame objects; later bindings shadow earlier ones. -/
structure Heap where
  cells : List (Nat × PyDF)
deriving DecidableEq

/-- Read a reference. -/
def Heap.get (h : Heap) (r : Nat) : Option PyDF :=
  match h.cells.find? (fun c => c.1 == r) with
  | none => none
  | some c => some c.2

/-- Write a reference (allocating it if absent). -/
def Heap.set (h : Heap) (r : Nat) (v : PyDF) : Heap :=
  ⟨(r, v) :: h.cells⟩

/-- A reference unused by the heap. -/
def Heap.fresh (h : Heap) : Nat :=
  (h.cells.map Prod.fst).foldr max 0 + 1

/-- `transform_survey_df(df)` as a call on a heap reference: `df.copy()`
allocates a fresh cell holding the same contents (line 80), all subsequent
column assignments and the deduplication act on that copy (lines 81-157),
and the reference to the copy is returned. A reference not holding a raw
frame is returned unchanged. -/
def transform_survey_df_call (h : Heap) (r : Nat) : Heap × Nat :=
  match h.get r with
  | some (.raw rows) =>
    let fresh := h.fresh
    let afterCopy := h.set fresh (.raw rows)
    let afterTransform := afterCopy.set fresh (.silver (transform_survey_rows rows))
    (afterTransform, fresh)
  | _ => (h, r)

/-! ## Concrete example values used by witnesses and counterexamples -/

/-- A raw row answering yes/no/often/yes/no. -/
def rawRowEx : RawRow :=
  { family_history := some "Yes", treatment := some "No",
    work_interfere := some "Often", mental_health_consequence := some "Yes",
    phys_health_consequence := some "No" }

/-- A canonical record with a given age group and no other data. -/
def cRecOf (g : String) : CRecord :=
  { timestamp := none, age := none, age_group := some g, gender_norm := none,
    treatment_std := none, no_employees_bucket := none,
    work_interfere_std := none, risk_score := none, country := none,
    state := none, comments := none }

/-- A listing entry `survey/a.parquet`, modified at time 5. -/
def objA : S3Obj := { key := "survey/a.parquet", lastModified := 5 }

/-- A listing entry `survey/b.parquet`, also modified at time 5. -/
def objB : S3Obj := { key := "survey/b.parquet", lastModified := 5 }

/-- A metrics dict whose optional metrics are all absent. -/
def resultadosEx : Resultados :=
  { total_respostas := 3, timestamps_unicos := none, idades_faltantes := none,
    tratamento := none, media_risco := none, mediana_risco := none,
    desvio_padrao_risco := none }

/-- A one-cell heap holding a raw frame at reference 0. -/
def heapEx : Heap := ⟨[(0, .raw [rawRowEx])]⟩

/-- A comments column with a sentinel, a too-short comment and two keepers. -/
def comentariosEx : List String :=
  ["  many   spaces   here ", "N/A", "tiny", "a sufficiently long comment"]

/-! # Theorems -/

/-! ## Claim C1: `_normalize_yes_no` -/

/-- Claim C1 counterexample: a missing value normalizes to null (`None`),
not to `"unknown"` as the claim states. -/
theorem normalize_yes_no_null_counterexample :
    _normalize_yes_no none = none ∧ _normalize_yes_no none ≠ some "unknown" :=
  ⟨rfl, by decide⟩

/-- Claim C1 (amended): `_normalize_yes_no` is total on non-null inputs with
range `{yes, no, maybe, unknown}` and matches the three lexicons
case-insensitively (after stripping); a missing/null input yields null, not
`"unknown"`. -/
theorem normalize_yes_no_amended (s : String) :
    _normalize_yes_no none = none ∧
    (pyLower (pyStrip s) ∈ yesTokens → _normalize_yes_no (some s) = some "yes") ∧
    (pyLower (pyStrip s) ∈ noTokens → _normalize_yes_no (some s) = some "no") ∧
    (pyLower (pyStrip s) ∈ maybeTokens → _normalize_yes_no (some s) = some "maybe") ∧
    (pyLower (pyStrip s) ∉ yesTokens → pyLower (pyStrip s) ∉ noTokens →
      pyLower (pyStrip s) ∉ maybeTokens →
      _normalize_yes_no (some s) = some "unknown") ∧
    _normalize_yes_no (some s) ∈
      [some "yes", some "no", some "maybe", some "unknown"] := by
  simp only [_normalize_yes_no]
  generalize pyLower (pyStrip s) = t
  refine ⟨trivial, fun h => ?_, fun h => ?_, fun h => ?_, fun h1 h2 h3 => ?_, ?_⟩
  · rw [if_pos h]
  · have hy : t ∉ yesTokens := by
      intro hy
      fin_cases h <;> revert hy <;> decide
    rw [if_neg hy, if_pos h]
  · have hy : t ∉ yesTokens := by
      intro hy
      fin_cases h <;> revert hy <;> decide
    have hn : t ∉ noTokens := by
      intro hn
      fin_cases h <;> revert hn <;> decide
    rw [if_neg hy, if_neg hn, if_pos h]
  · rw [if_neg h1, if_neg h2, if_neg h3]
  · split_ifs <;> decide

/-- Witness for C1's amended theorem at the input `" SIM "`. -/
theorem normalize_yes_no_amended_witness :
    pyLower (pyStrip " SIM ") ∈ yesTokens ∧
      _normalize_yes_no (some " SIM ") = some "yes" :=
  ⟨by decide, (normalize_yes_no_amended " SIM ").2.1 (by decide)⟩

/-! ## Claim C5: free-text sentinel collapsing -/

/-- Claim C5 counterexample: the trimmed value `"N/A"` matches a sentinel
token case-insensitively, yet the code keeps it (the replace dict is
case-sensitive), so it does not collapse to null. -/
theorem clean_text_case_counterexample :
    pyLower (pyStrip "N/A") ∈ textSentinels ∧
      clean_text_col "N/A" = some "N/A" ∧ clean_text_col "N/A" ≠ none :=
  ⟨by decide, by decide, by decide⟩

/-- Claim C5 (amended): free-text values are trimmed, and a value collapses
to null exactly when its trimmed form is one of the lower-case sentinel
tokens `nan`, `none`, `na`, `n/a` matched case-sensitively; any other value
is kept in trimmed form. -/
theorem clean_text_amended (s : String) :
    (pyStrip s ∈ textSentinels → clean_text_col s = none) ∧
    (pyStrip s ∉ textSentinels → clean_text_col s = some (pyStrip s)) := by
  constructor <;> intro h <;> simp [clean_text_col, h]

/-- Witness for C5's amended theorem at `"  nan  "` and `" Brazil "`. -/
theorem clean_text_amended_witness :
    clean_text_col "  nan  " = none ∧ clean_text_col " Brazil " = some "Brazil" :=
  ⟨(clean_text_amended "  nan  ").1 (by decide),
   (clean_text_amended " Brazil ").2 (by decide)⟩

/-! ## Claim C6: `bucket_emp` -/

/-- Claim C6 counterexample: a value containing `+` is not passed through
verbatim — the code lower-cases it first. -/
theorem bucket_emp_verbatim_counterexample :
    '+' ∈ "5+ Years".toList ∧ bucket_emp "5+ Years" = "5+ years" ∧
      bucket_emp "5+ Years" ≠ "5+ Years" :=
  ⟨by decide, by decide, by decide⟩

/-- Claim C6 (amended): `bucket_emp` lower-cases the raw text first; if the
lower-cased text contains `-` or `+` it is returned as-is (lower-cased, not
verbatim); otherwise the concatenated digits are bucketed by the thresholds
5/25/100/500, and a digit-free text is returned lower-cased. -/
theorem bucket_emp_amended (v : String) :
    ('-' ∈ (pyLower v).toList ∨ '+' ∈ (pyLower v).toList →
      bucket_emp v = pyLower v) ∧
    ('-' ∉ (pyLower v).toList → '+' ∉ (pyLower v).toList →
      digitsOf (pyLower v).toList = [] → bucket_emp v = pyLower v) ∧
    ('-' ∉ (pyLower v).toList → '+' ∉ (pyLower v).toList →
      digitsOf (pyLower v).toList ≠ [] →
      ((digitsToNat (digitsOf (pyLower v).toList) ≤ 5 → bucket_emp v = "1-5") ∧
       (5 < digitsToNat (digitsOf (pyLower v).toList) →
         digitsToNat (digitsOf (pyLower v).toList) ≤ 25 →
         bucket_emp v = "6-25") ∧
       (25 < digitsToNat (digitsOf (pyLower v).toList) →
         digitsToNat (digitsOf (pyLower v).toList) ≤ 100 →
         bucket_emp v = "26-100") ∧
       (100 < digitsToNat (digitsOf (pyLower v).toList) →
         digitsToNat (digitsOf (pyLower v).toList) ≤ 500 →
         bucket_emp v = "101-500") ∧
       (500 < digitsToNat (digitsOf (pyLower v).toList) →
         bucket_emp v = "500+"))) := by
  simp only [bucket_emp]
  refine ⟨fun h => ?_, fun h1 h2 h3 => ?_, fun h1 h2 h3 => ?_⟩
  · rw [if_pos h]
  · rw [if_neg (not_or.mpr ⟨h1, h2⟩), if_pos h3]
  · refine ⟨fun h4 => ?_, fun h4 h5 => ?_, fun h4 h5 => ?_, fun h4 h5 => ?_,
      fun h4 => ?_⟩
    · rw [if_neg (not_or.mpr ⟨h1, h2⟩), if_neg h3, if_pos h4]
    · rw [if_neg (not_or.mpr ⟨h1, h2⟩), if_neg h3, if_neg (by omega), if_pos h5]
    · rw [if_neg (not_or.mpr ⟨h1, h2⟩), if_neg h3, if_neg (by omega),
        if_neg (by omega), if_pos h5]
    · rw [if_neg (not_or.mpr ⟨h1, h2⟩), if_neg h3, if_neg (by omega),
        if_neg (by omega), if_neg (by omega), if_pos h5]
    · rw [if_neg (not_or.mpr ⟨h1, h2⟩), if_neg h3, if_neg (by omega),
        if_neg (by omega), if_neg (by omega), if_neg (by omega)]

/-- Witness for C6's amended theorem at `"More than 1000"` and `"42"`. -/
theorem bucket_emp_amended_witness :
    bucket_emp "More than 1000" = "500+" ∧ bucket_emp "42" = "26-100" :=
  ⟨((bucket_emp_amended "More than 1000").2.2 (by decide) (by decide)
      (by decide)).2.2.2.2 (by decide),
   ((bucket_emp_amended "42").2.2 (by decide) (by decide)
      (by decide)).2.2.1 (by decide) (by decide)⟩

/-! ## Claim C7: `_extract_bucket_name` -/

/-- Claim C7 counterexample: the generic `scheme://name/path` form is not
accepted — only `s3://` is recognized. For `gs://my-bucket/path/file` the
code extracts `gs:` (which fails the pattern) and raises a validation error
instead of returning the valid name `my-bucket`. -/
theorem extract_bucket_scheme_counterexample :
    validBucketName "my-bucket" = true ∧
      leading_identifier "gs://my-bucket/path/file" = "gs:" ∧
      (_extract_bucket_name "gs://my-bucket/path/file").toOption = none ∧
      (_extract_bucket_name "gs://my-bucket/path/file").toOption ≠
        some "my-bucket" ∧
      (_extract_bucket_name "s3://my-bucket/path/file").toOption =
        some "my-bucket" :=
  ⟨by decide, by decide, by decide, by decide, by decide⟩

/-- Claim C7 (amended): `_extract_bucket_name` accepts a bare name, a
`name/path` form, or an `s3://name/path` form (only the `s3` scheme); it
returns the extracted leading identifier when that matches the 1-255
character `[A-Za-z0-9.-_]` pattern and raises a `ValueError` exactly when
the input is empty or the extracted identifier fails the pattern; in
particular `s3://my-bucket/path/file` yields `my-bucket`, `raw` yields
`raw`, and the empty string fails. -/
theorem extract_bucket_name_amended (value : String) :
    (value = "" → _extract_bucket_name value = .error "Bucket value está vazio") ∧
    (value ≠ "" → validBucketName (leading_identifier value) = true →
      _extract_bucket_name value = .ok (leading_identifier value)) ∧
    (value ≠ "" → validBucketName (leading_identifier value) = false →
      _extract_bucket_name value =
        .error ("Nome de bucket inválido extraído: " ++ leading_identifier value)) ∧
    _extract_bucket_name "s3://my-bucket/path/file" = .ok "my-bucket" ∧
    _extract_bucket_name "raw" = .ok "raw" ∧
    _extract_bucket_name "" = .error "Bucket value está vazio" := by
  refine ⟨fun h => ?_, fun h hv => ?_, fun h hv => ?_, rfl, rfl, rfl⟩
  · simp [_extract_bucket_name, h]
  · simp [_extract_bucket_name, h, hv]
  · simp [_extract_bucket_name, h, hv]

/-- Witness for C7's amended theorem at `"silver"`. -/
theorem extract_bucket_name_amended_witness :
    _extract_bucket_name "silver" = .ok (leading_identifier "silver") :=
  (extract_bucket_name_amended "silver").2.1 (by decide) (by decide)

/-! ## Claim C2: risk score and follow-up flag -/

/-- Each yes-flag is binary. -/
theorem flag_yes_le_one (v : Option String) : flag_yes v ≤ 1 := by
  simp only [flag_yes]
  split <;> omega

/-- The work-interference flag is binary. -/
theorem flag_wi_le_one (s : String) : flag_wi s ≤ 1 := by
  simp only [flag_wi]
  split <;> omega

/-- A yes-flag vanishes exactly on non-`yes` values. -/
theorem flag_yes_eq_zero_iff (v : Option String) :
    flag_yes v = 0 ↔ v ≠ some "yes" := by
  simp only [flag_yes]
  split <;> simp_all

/-- Claim C2: every record produced by `transform_survey_df` has
`risk_score` equal to the sum of the five binary indicators, hence in
`[0, 5]`, and `needs_follow_up` is set exactly when `risk_score ≥ 2` and the
normalized treatment flag is not `"yes"`. -/
theorem risk_score_needs_follow_up_spec (rows : List RawRow) (s : SilverRow)
    (hs : s ∈ transform_survey_rows rows) :
    s.risk_score ≤ 5 ∧
      (s.needs_follow_up = 1 ↔
        2 ≤ s.risk_score ∧ s.treatment_std ≠ some "yes") := by
  rcases List.mem_map.mp (List.mem_dedup.mp hs) with ⟨raw, -, rfl⟩
  dsimp only [transformRow]
  constructor
  · have h1 := flag_yes_le_one (_normalize_yes_no raw.family_history)
    have h2 := flag_yes_le_one (_normalize_yes_no raw.treatment)
    have h3 := flag_wi_le_one (work_interfere_norm raw.work_interfere)
    have h4 := flag_yes_le_one (_normalize_yes_no raw.mental_health_consequence)
    have h5 := flag_yes_le_one (_normalize_yes_no raw.phys_health_consequence)
    omega
  · rw [← flag_yes_eq_zero_iff]
    split <;> rename_i hc
    · exact iff_of_true rfl hc
    · simp [hc]

/-- Witness for C2 at a concrete raw row (yes/no/often/yes/no: score 3,
no treatment, so follow-up fires). -/
theorem risk_score_needs_follow_up_spec_witness :
    (transformRow rawRowEx).risk_score ≤ 5 ∧
      ((transformRow rawRowEx).needs_follow_up = 1 ↔
        2 ≤ (transformRow rawRowEx).risk_score ∧
          (transformRow rawRowEx).treatment_std ≠ some "yes") :=
  risk_score_needs_follow_up_spec [rawRowEx] (transformRow rawRowEx) (by decide)

/-! ## Claim C8: comments excerpt -/

/-- Claim C8: the comments artifact exists exactly when some cleaned comment
longer than 5 characters exists, and then it is the 200-element prefix of a
descending-length sort of the qualifying comments — i.e. the 200 longest, in
descending length order. -/
theorem top_comentarios_spec (comments : List String) :
    (topComentarios comments = none ↔ comentariosQualificados comments = []) ∧
    (∀ l, topComentarios comments = some l →
      ∃ s, s.Perm (comentariosQualificados comments) ∧ List.Sorted lenGe s ∧
        l = s.take 200) := by
  constructor
  · simp only [topComentarios]
    split <;> rename_i h
    · simp [h]
    · simp [h]
  · intro l hl
    simp only [topComentarios] at hl
    split at hl
    · exact absurd hl (by simp)
    · exact ⟨List.insertionSort lenGe (comentariosQualificados comments),
        List.perm_insertionSort _ _, List.sorted_insertionSort _ _,
        (Option.some.inj hl).symm⟩

/-- Witness for C8 at a concrete comments column. -/
theorem top_comentarios_spec_witness :
    ∃ s, s.Perm (comentariosQualificados comentariosEx) ∧ List.Sorted lenGe s ∧
      ["a sufficiently long comment", "many spaces here"] = s.take 200 :=
  (top_comentarios_spec comentariosEx).2
    ["a sufficiently long comment", "many spaces here"] rfl

/-! ## Claim C4: silver artifact selection -/

/-- `primeiroMax` never returns `none` on a non-empty list. -/
theorem primeiroMax_ne_none (x : S3Obj) (xs : List S3Obj) :
    primeiroMax (x :: xs) ≠ none := by
  cases hp : primeiroMax xs with
  | none => simp [primeiroMax, hp]
  | some m =>
    simp only [primeiroMax, hp]
    split <;> simp

/-- The head of the stable descending sort is the first-listed maximum: the
code's `sorted(..., reverse=True)[0]` agrees with the spec-side selection
function. -/
theorem head_insertionSort_lmGe (l : List S3Obj) :
    (List.insertionSort lmGe l).head? = primeiroMax l := by
  induction l with
  | nil => rfl
  | cons x xs ih =>
    simp only [List.insertionSort]
    cases hs : List.insertionSort lmGe xs with
    | nil =>
      have h0 : primeiroMax xs = none := by rw [← ih, hs]; rfl
      simp [List.orderedInsert, primeiroMax, h0]
    | cons y ys =>
      have h0 : primeiroMax xs = some y := by rw [← ih, hs]; rfl
      simp only [primeiroMax, h0, List.orderedInsert]
      by_cases hxy : lmGe x y
      · simp [hxy]
      · simp [hxy]

/-- The selection of `primeiroMax` is a member attaining the maximal
modification time. -/
theorem primeiroMax_spec (l : List S3Obj) :
    ∀ m : S3Obj, primeiroMax l = some m →
      m ∈ l ∧ ∀ o ∈ l, o.lastModified ≤ m.lastModified := by
  induction l with
  | nil => intro m h; cases h
  | cons x xs ih =>
    intro m h
    cases hx : primeiroMax xs with
    | none =>
      simp only [primeiroMax, hx] at h
      injection h with h
      subst h
      refine ⟨List.mem_cons_self _ _, ?_⟩
      intro o ho
      rcases List.mem_cons.mp ho with rfl | ho'
      · exact le_refl _
      · cases xs with
        | nil => cases ho'
        | cons a l => exact absurd hx (primeiroMax_ne_none a l)
    | some pm =>
      simp only [primeiroMax, hx] at h
      obtain ⟨hmem, hmax⟩ := ih pm hx
      by_cases hc : lmGe x pm
      · rw [if_pos hc] at h
        injection h with h
        subst h
        refine ⟨List.mem_cons_self _ _, ?_⟩
        intro o ho
        rcases List.mem_cons.mp ho with rfl | ho'
        · exact le_refl _
        · exact le_trans (hmax o ho') hc
      · rw [if_neg hc] at h
        injection h with h
        subst h
        refine ⟨List.mem_cons_of_mem _ hmem, ?_⟩
        intro o ho
        rcases List.mem_cons.mp ho with rfl | ho'
        · exact le_of_lt (Nat.lt_of_not_le hc)
        · exact hmax o ho'

/-- Claim C4 counterexample: two parquet candidates share their modification
time; the code returns the first-listed key — here the lexicographically
smallest — not the lexicographically greatest one the claim demands. -/
theorem obter_ultimo_tie_counterexample :
    objA.lastModified = objB.lastModified ∧
      objA.key.toList < objB.key.toList ∧
      (_obter_ultimo_arquivo_silver [objA, objB]).toOption = some objA.key ∧
      (_obter_ultimo_arquivo_silver [objA, objB]).toOption ≠ some objB.key :=
  ⟨rfl, by decide, by decide, by decide⟩

/-- Claim C4 (amended): with no parquet candidate the selection fails with a
not-found error; with candidates it returns the key of the first-listed
object attaining the greatest modification time (Python's `sorted` is
stable, so a tie is broken towards the earliest listing position, not the
lexicographically greatest key). -/
theorem obter_ultimo_arquivo_amended (objs : List S3Obj) :
    (parquetCandidates objs = [] →
      _obter_ultimo_arquivo_silver objs =
        .error "Nenhum arquivo .parquet encontrado") ∧
    (∀ o, primeiroMax (parquetCandidates objs) = some o →
      _obter_ultimo_arquivo_silver objs = .ok o.key ∧
        o ∈ parquetCandidates objs ∧
        ∀ p ∈ parquetCandidates objs, p.lastModified ≤ o.lastModified) ∧
    (parquetCandidates objs ≠ [] →
      ∃ o, primeiroMax (parquetCandidates objs) = some o) := by
  refine ⟨fun h => ?_, fun o ho => ?_, fun h => ?_⟩
  · simp only [_obter_ultimo_arquivo_silver, h]
    rfl
  · have hh : (List.insertionSort lmGe (parquetCandidates objs)).head? = some o := by
      rw [head_insertionSort_lmGe]
      exact ho
    obtain ⟨hmem, hmax⟩ := primeiroMax_spec _ o ho
    exact ⟨by simp only [_obter_ultimo_arquivo_silver, hh], hmem, hmax⟩
  · cases hc : parquetCandidates objs with
    | nil => exact absurd hc h
    | cons a l =>
      cases hm : primeiroMax (a :: l) with
      | none => exact absurd hm (primeiroMax_ne_none a l)
      | some m => exact ⟨m, rfl⟩

/-- Witness for C4's amended theorem at the two-candidate tie listing. -/
theorem obter_ultimo_arquivo_amended_witness :
    _obter_ultimo_arquivo_silver [objA, objB] = .ok objA.key ∧
      objA ∈ parquetCandidates [objA, objB] ∧
      ∀ p ∈ parquetCandidates [objA, objB], p.lastModified ≤ objA.lastModified :=
  (obter_ultimo_arquivo_amended [objA, objB]).2.1 objA (by decide)

/-! ## Claim C9: `transform_survey_df` does not mutate its argument -/

/-- Writing a different reference leaves a cell unchanged. -/
theorem Heap.get_set_ne (h : Heap) (r r' : Nat) (v : PyDF) (hne : r' ≠ r) :
    (h.set r' v).get r = h.get r := by
  simp only [Heap.get, Heap.set]
  rw [List.find?_cons_of_neg _ (by simp [hne])]

/-- A live reference is strictly below the fresh reference. -/
theorem Heap.lt_fresh_of_get (h : Heap) (r : Nat) (v : PyDF)
    (hv : h.get r = some v) : r < h.fresh := by
  simp only [Heap.get] at hv
  cases hf : h.cells.find? (fun c => c.1 == r) with
  | none => rw [hf] at hv; cases hv
  | some c =>
    have hc := List.mem_of_find?_eq_some hf
    have hpc := List.find?_some hf
    have heq : c.1 = r := by simpa using hpc
    have hmem : r ∈ h.cells.map Prod.fst := heq ▸ List.mem_map_of_mem _ hc
    have hb : ∀ (L : List Nat) (x : Nat), x ∈ L → x ≤ L.foldr max 0 := by
      intro L
      induction L with
      | nil => intro x hx; cases hx
      | cons a as ih =>
        intro x hx
        rcases List.mem_cons.mp hx with rfl | hx'
        · exact le_max_left _ _
        · exact le_trans (ih x hx') (le_max_right _ _)
    exact Nat.lt_succ_of_le (hb _ r hmem)

/-- Claim C9: `transform_survey_df` operates on a copy — after the call the
caller's reference still holds exactly the frame it held before. -/
theorem transform_preserves_caller_df (h : Heap) (r : Nat) (v : PyDF)
    (hv : h.get r = some v) :
    (transform_survey_df_call h r).1.get r = some v := by
  cases v with
  | silver rows =>
    simp only [transform_survey_df_call, hv]
  | raw rows =>
    have hfr : r < h.fresh := Heap.lt_fresh_of_get h r _ hv
    simp only [transform_survey_df_call, hv]
    rw [Heap.get_set_ne _ _ _ _ (Nat.ne_of_gt hfr),
      Heap.get_set_ne _ _ _ _ (Nat.ne_of_gt hfr)]
    exact hv

/-- Witness for C9 at a one-cell heap holding a raw frame. -/
theorem transform_preserves_caller_df_witness :
    heapEx.get 0 = some (.raw [rawRowEx]) ∧
      (transform_survey_df_call heapEx 0).1.get 0 = some (.raw [rawRowEx]) :=
  ⟨rfl, transform_preserves_caller_df heapEx 0 _ rfl⟩

/-! ## Claim C10: fixed gold summary schema -/

/-- Claim C10 counterexample: in the serialized summary table, an absent
metric's `valor` is the literal string `"<NA>"` — the stringification of
the pandas missing marker produced by the `astype('string')`/`str`
coercions of lines 212-216 — and not null as the claim states. -/
theorem resumo_na_counterexample :
    (resumo_final resultadosEx)[2]? = some ("idades_faltantes", some "<NA>") ∧
      (some "<NA>" : Option String) ≠ none :=
  ⟨rfl, by decide⟩

/-- Claim C10 (amended): for every metrics dict, whatever optional metrics
are absent, the serialized gold summary has exactly nine rows carrying the
nine fixed metric names in order; every `valor` is a string and never null —
an absent metric appears as a row whose `valor` is the literal string
`"<NA>"` (pandas' rendering of its missing marker under the line 212-216
coercions), never as a missing row. -/
theorem resumo_final_schema (r : Resultados) :
    (resumo_final r).map Prod.fst =
      ["total_respostas", "timestamps_unicos", "idades_faltantes",
       "total_tratamentos", "tratamentos_sim", "taxa_tratamento",
       "media_risco", "mediana_risco", "desvio_padrao_risco"] ∧
    (resumo_final r).length = 9 ∧
    (∀ p ∈ resumo_final r, ∃ s, p.2 = some s) ∧
    (r.idades_faltantes = none →
      (resumo_final r)[2]? = some ("idades_faltantes", some "<NA>")) ∧
    (r.tratamento = none →
      (resumo_final r)[5]? = some ("taxa_tratamento", some "<NA>")) := by
  refine ⟨rfl, rfl, ?_, fun h => ?_, fun h => ?_⟩
  · intro p hp
    rcases List.mem_map.mp hp with ⟨q, -, rfl⟩
    cases hv : q.2 with
    | none => exact ⟨"<NA>", by simp [valor_final, hv]⟩
    | some s => exact ⟨s, by simp [valor_final, hv]⟩
  · simp [resumo_final, resumo, h, ofOptInt, _to_str_or_none, valor_final]
  · simp [resumo_final, resumo, h, ofOptFloat, _to_str_or_none, valor_final]

/-- Witness for C10's amended theorem at a dict with every optional metric
absent. -/
theorem resumo_final_schema_witness :
    (resumo_final resultadosEx)[2]? = some ("idades_faltantes", some "<NA>") ∧
      (resumo_final resultadosEx)[5]? = some ("taxa_tratamento", some "<NA>") :=
  ⟨(resumo_final_schema resultadosEx).2.2.2.1 rfl,
   (resumo_final_schema resultadosEx).2.2.2.2 rfl⟩

/-! ## Claim C3: row-order invariance of `calcular_metricas` -/

/-- `any` is invariant under permutation. -/
theorem perm_any {α : Type} {l l' : List α} (h : l.Perm l') (p : α → Bool) :
    l.any p = l'.any p := by
  cases hl : l.any p <;> cases hl' : l'.any p <;> try rfl
  · obtain ⟨x, hx, hp⟩ := List.any_eq_true.mp hl'
    have hcontra : l.any p = true :=
      List.any_eq_true.mpr ⟨x, h.mem_iff.mpr hx, hp⟩
    rw [hl] at hcontra
    cases hcontra
  · obtain ⟨x, hx, hp⟩ := List.any_eq_true.mp hl
    have hcontra : l'.any p = true :=
      List.any_eq_true.mpr ⟨x, h.mem_iff.mp hx, hp⟩
    rw [hl'] at hcontra
    cases hcontra

/-- `value_counts` tables of permuted columns are permutations of each
other (the same `(value, count)` rows, possibly ordered differently at
count ties). -/
theorem valueCounts_perm {α : Type} [DecidableEq α] {l l' : List α}
    (h : l.Perm l') : (valueCounts l).Perm (valueCounts l') := by
  unfold valueCounts
  have h1 : (l.dedup.map (fun k => (k, l.count k))).Perm
      (l'.dedup.map (fun k => (k, l'.count k))) := by
    have h2 : l'.dedup.map (fun k => (k, l.count k)) =
        l'.dedup.map (fun k => (k, l'.count k)) :=
      List.map_congr_left (fun a _ => by rw [h.count_eq a])
    exact h2 ▸ (h.dedup.map _)
  exact ((List.perm_insertionSort countGe _).trans h1).trans
    (List.perm_insertionSort countGe _).symm

/-- Sorting ascending is invariant under permutation of the input. -/
theorem insertionSort_le_eq_of_perm {l l' : List ℚ} (h : l.Perm l') :
    List.insertionSort (· ≤ ·) l = List.insertionSort (· ≤ ·) l' :=
  List.eq_of_perm_of_sorted
    ((List.perm_insertionSort _ l).trans
      (h.trans (List.perm_insertionSort _ l').symm))
    (List.sorted_insertionSort _ _) (List.sorted_insertionSort _ _)

/-- The median is invariant under permutation. -/
theorem medianaDe_perm {l l' : List ℚ} (h : l.Perm l') :
    medianaDe l = medianaDe l' := by
  unfold medianaDe
  rw [insertionSort_le_eq_of_perm h]

/-- The sample variance is invariant under permutation. -/
theorem variancia_perm {l l' : List ℚ} (h : l.Perm l') :
    variancia l = variancia l' := by
  simp only [variancia]
  rw [h.length_eq, h.sum_eq, List.Perm.sum_eq (h.map _)]

/-- The treatment metrics are invariant under permutation of the records. -/
theorem tratamentoDe_perm {l l' : List CRecord} (h : l.Perm l') :
    tratamentoDe l = tratamentoDe l' := by
  simp only [tratamentoDe]
  have hvc : (valueCounts (l.map (·.treatment_std))).Perm
      (valueCounts (l'.map (·.treatment_std))) := valueCounts_perm (h.map _)
  have htot : ((valueCounts (l.map (·.treatment_std))).map Prod.snd).sum =
      ((valueCounts (l'.map (·.treatment_std))).map Prod.snd).sum :=
    (hvc.map _).sum_eq
  have hany : (valueCounts (l.map (·.treatment_std))).any
        (fun p => p.1 == some "yes") =
      (valueCounts (l'.map (·.treatment_std))).any
        (fun p => p.1 == some "yes") :=
    perm_any hvc _
  have hsim : (((valueCounts (l.map (·.treatment_std))).filter
        (fun p => p.1 == some "yes")).map Prod.snd).sum =
      (((valueCounts (l'.map (·.treatment_std))).filter
        (fun p => p.1 == some "yes")).map Prod.snd).sum :=
    ((hvc.filter _).map _).sum_eq
  rw [htot, hany, hsim]

/-- The non-null risk values of permuted record sets are permutations. -/
theorem riscos_perm {l l' : List CRecord} (h : l.Perm l') :
    (l.filterMap (·.risk_score)).Perm (l'.filterMap (·.risk_score)) :=
  h.filterMap _

/-- Claim C3 counterexample: swapping two records permutes the rows of the
age-group distribution table (their counts tie), so the table produced from
the permuted input is not identical as a table to the original one. -/
theorem calcular_metricas_order_counterexample :
    List.Perm [cRecOf "adult", cRecOf "child"] [cRecOf "child", cRecOf "adult"] ∧
      (calcular_metricas [cRecOf "adult", cRecOf "child"]).faixa_etaria ≠
        (calcular_metricas [cRecOf "child", cRecOf "adult"]).faixa_etaria :=
  ⟨List.Perm.swap _ _ _, by decide⟩

/-- Claim C3 (amended): `calcular_metricas` is row-order invariant up to
table row order — every scalar summary value (count metrics, treatment
metrics, mean/median/deviation of the risk score) and the missing-value
table are equal under any permutation of the records, and each categorical
distribution table contains exactly the same `(category, count)` rows,
though their order inside a table may change when counts tie. -/
theorem calcular_metricas_perm_invariant (l l' : List CRecord)
    (h : l.Perm l') :
    (calcular_metricas l).total_respostas =
      (calcular_metricas l').total_respostas ∧
    (calcular_metricas l).timestamps_unicos =
      (calcular_metricas l').timestamps_unicos ∧
    (calcular_metricas l).idades_faltantes =
      (calcular_metricas l').idades_faltantes ∧
    (calcular_metricas l).tratamento = (calcular_metricas l').tratamento ∧
    (calcular_metricas l).media_risco = (calcular_metricas l').media_risco ∧
    (calcular_metricas l).mediana_risco =
      (calcular_metricas l').mediana_risco ∧
    (calcular_metricas l).desvio_padrao_risco_sq =
      (calcular_metricas l').desvio_padrao_risco_sq ∧
    (calcular_metricas l).faltantes = (calcular_metricas l').faltantes ∧
    ((calcular_metricas l).faixa_etaria).Perm
      ((calcular_metricas l').faixa_etaria) ∧
    ((calcular_metricas l).genero).Perm ((calcular_metricas l').genero) ∧
    ((calcular_metricas l).tamanho_empresa).Perm
      ((calcular_metricas l').tamanho_empresa) ∧
    ((calcular_metricas l).interferencia_trabalho).Perm
      ((calcular_metricas l').interferencia_trabalho) := by
  have hrisk := riscos_perm h
  have hnil : (l.filterMap (·.risk_score) = []) ↔
      (l'.filterMap (·.risk_score) = []) := by
    rw [← List.length_eq_zero, ← List.length_eq_zero, hrisk.length_eq]
  dsimp only [calcular_metricas]
  refine ⟨h.length_eq, ((h.filterMap _).dedup).length_eq,
    List.Perm.countP_eq _ h, tratamentoDe_perm h, ?_, ?_, ?_, ?_,
    valueCounts_perm (h.map _), valueCounts_perm (h.map _),
    valueCounts_perm (h.map _), valueCounts_perm (h.map _)⟩
  · by_cases he : l.filterMap (·.risk_score) = []
    · rw [if_pos he, if_pos (hnil.mp he)]
    · rw [if_neg he, if_neg (fun e => he (hnil.mpr e))]
      rw [hrisk.sum_eq, hrisk.length_eq]
  · by_cases he : l.filterMap (·.risk_score) = []
    · rw [if_pos he, if_pos (hnil.mp he)]
    · rw [if_neg he, if_neg (fun e => he (hnil.mpr e))]
      rw [medianaDe_perm hrisk]
  · by_cases he : l.filterMap (·.risk_score) = []
    · rw [if_pos he, if_pos (hnil.mp he)]
    · rw [if_neg he, if_neg (fun e => he (hnil.mpr e))]
      rw [hrisk.length_eq, variancia_perm hrisk]
  · exact List.map_congr_left
      (fun c _ => by rw [List.Perm.countP_eq _ h, h.length_eq])

/-- Witness for C3's amended theorem at the swapped two-record sets. -/
theorem calcular_metricas_perm_invariant_witness :
    (calcular_metricas [cRecOf "adult", cRecOf "child"]).total_respostas =
      (calcular_metricas [cRecOf "child", cRecOf "adult"]).total_respostas ∧
      ((calcular_metricas [cRecOf "adult", cRecOf "child"]).faixa_etaria).Perm
        ((calcular_metricas [cRecOf "child", cRecOf "adult"]).faixa_etaria) :=
  ⟨(calcular_metricas_perm_invariant _ _ (List.Perm.swap _ _ _)).1,
   (calcular_metricas_perm_invariant _ _
      (List.Perm.swap _ _ _)).2.2.2.2.2.2.2.2.1⟩

end SurveyETL
